import Mathlib

/-!
Verification development for the farm-ingestion telegram bot.

The Python sources are shallowly embedded as executable Lean definitions:

* `src/constants.py`          → option sets, province codes, sentinels
* `src/handlers/survey_handlers.py` (the variant wired up by `src/main.py`
  through the `handlers` package) → the per-conversation survey state
  machine (`step`, `runEv`, `toggleProblem`, restart handling)
* `src/handlers.py`           → the legacy handler variant (restart)
* `src/services/upload_queue.py` → the sequential upload queue (`qstep`)
* `src/utils/retry.py`        → the retry combinator (`retryExec`)
* `src/services/drive_service.py` → folder cache / idempotent folder
  resolution and `upload_file`
* `src/handlers/photo_handlers.py`, `src/main.py` → photo filename and
  destination folder conventions

Side effects that the claims do not depend on (message sending, keyboard
rendering, logging) are dropped; external collaborators (geolocation
resolution, the clock, Telegram identities) enter as parameters.
-/

set_option maxHeartbeats 1000000

namespace FarmBot

/-! ## Constants (src/constants.py) -/

def PROBLEM_OPTIONS : List String :=
  ["none_observed", "yellowing", "brown_spots", "wilting", "lodging",
   "pest_damage", "weed_infestation", "uneven_growth", "other_problem"]

def RAINFALL_INTENSITY_OPTIONS : List String := ["heavy", "moderate", "low"]

def SOIL_OPTIONS : List String := ["smooth", "medium", "rough"]

def GROWTH_STAGE_KEYS : List String :=
  ["land_prep", "transplanted", "tillering", "flowering", "ripening", "harvest", "fallow"]

def WATER_STATUS_OPTIONS : List String := ["flooded", "mostly_wet", "frequently_dry", "drought"]

def HEALTH_OPTIONS : List String := ["excellent", "good", "fair", "poor"]

def YES_NO_REMEMBER_OPTIONS : List String := ["yes", "no", "dont_remember"]

def FERTILIZER_TYPE_OPTIONS : List String := ["urea", "npk", "organic", "other"]

def STRESS_EVENT_OPTIONS : List String := ["flood", "drought_event", "none", "other_stress"]

def PROBLEM_DONE : String := "done"

def PROBLEM_NONE : String := "none_observed"

def VALUE_NA : String := "N/A"

def PROVINCE_CODES : List (String × String) :=
  [("Banteay Meanchey", "BMC"), ("Battambang", "BTB"), ("Kampong Cham", "KCM"),
   ("Kampong Chhnang", "KCG"), ("Kampong Speu", "KSP"), ("Kampong Thom", "KTM"),
   ("Kampot", "KPT"), ("Kandal", "KDL"), ("Koh Kong", "KKG"), ("Kratie", "KTE"),
   ("Mondulkiri", "MKR"), ("Oddar Meanchey", "OMC"), ("Preah Vihear", "PVH"),
   ("Pursat", "PST"), ("Prey Veng", "PVG"), ("Ratanakiri", "RKP"),
   ("Siem Reap", "SRP"), ("Stung Treng", "STG"), ("Svay Rieng", "SRG"),
   ("Takeo", "TKO"), ("Kep", "KEP"), ("Pailin", "PLN"), ("Phnom Penh", "PNH"),
   ("Sihanoukville", "SHV"), ("Tbong Khmum", "TBM")]

def get_province_code (provinceName : String) : String :=
  (PROVINCE_CODES.lookup provinceName).getD "UNK"

/-! ## String helpers

`pyReplaceChar s c r` models Python's `s.replace(c, r)` for the single-character
patterns the source uses (`.replace(" ", "_")`, `.replace("-", "")`).
`pad2` models the `{n:02d}` format specifier for non-negative `n`. -/

def pyReplaceChar (s : String) (old : Char) (new : String) : String :=
  s.data.foldl (fun acc ch => acc ++ (if ch = old then new else String.singleton ch)) ""

def pad2 (n : Nat) : String :=
  if n < 10 then "0" ++ toString n else toString n

def charsLead : List Char → List Char → Bool
  | [], _ => true
  | _ :: _, [] => false
  | a :: as, b :: bs => a == b && charsLead as bs

def charsSub (needle : List Char) : List Char → Bool
  | [] => needle.isEmpty
  | h :: t => charsLead needle (h :: t) || charsSub needle t

/-- Python's substring test `needle in hay`. -/
def containsSub (hay needle : String) : Bool :=
  charsSub needle.data hay.data

/-! ## Conversation states (src/config.py) and session data

`BotState.complete` stands for `ConversationHandler.END`, the terminal state
reached after the stress-events answer.  The session record flattens
`context.user_data`: the nested `user_data['survey']` dict becomes the answer
fields plus the `surveyStarted` flag recording that the `'survey'` key exists;
an `Option` field is `none` exactly when the corresponding key is absent.
Coordinates are opaque integers (the claims never compute with them). -/

inductive BotState where
  | language | location | farmNumber | rainfall | rainfallIntensity
  | soilRoughness | growthStage | waterStatus | overallHealth
  | visibleProblems | fertilizer | herbicide | pesticide | stressEvents
  | complete
  deriving DecidableEq, Repr

structure Session where
  language : Option String := none
  surveyStarted : Bool := false
  survey_user_id : Option Nat := none
  location : Option (Int × Int) := none
  date_str : Option String := none
  province : Option String := none
  local_folder : Option String := none
  drive_folder : Option String := none
  farm_number : Option Nat := none
  rainfall : Option String := none
  rainfall_intensity : Option String := none
  soil_roughness : Option String := none
  growth_stage : Option String := none
  water_status : Option String := none
  overall_health : Option String := none
  visible_problems : Option (List String) := none
  fertilizer : Option String := none
  fertilizer_type : Option String := none
  herbicide : Option String := none
  pesticide : Option String := none
  stress_events : Option String := none
  photo_count : Option Nat := none
  deriving DecidableEq, Repr

/-- External collaborators fixed for a conversation: the Telegram user id,
the effective username, and the current date string (`YYYY-MM-DD`). -/
structure Env where
  userId : Nat
  username : String
  today : String
  deriving DecidableEq, Repr

/-- One inbound user action, already dispatched by category.  Each callback
button value is `"{category}_{option}"`; the constructors carry the option
with the category prefix already stripped, exactly as the handlers recover it.
The `loc` event carries the geolocation resolver's output (`none` when the
point is in no known province). -/
inductive Ev where
  | lang (v : String)
  | loc (lat lon : Int) (resolvedProvince : Option String)
  | farm (n : Nat)
  | rainfall (v : String)
  | intensity (v : String)
  | soil (v : String)
  | growth (v : String)
  | water (v : String)
  | health (v : String)
  | problem (v : String)
  | fert (v : String)
  | fertType (v : String)
  | herb (v : String)
  | pest (v : String)
  | stress (v : String)
  deriving DecidableEq, Repr

/-- `start` (src/handlers/survey_handlers.py, lines 52-64):
`user_data.clear(); user_data['survey'] = {}; user_data['survey_user_id'] = uid`. -/
def startSession (env : Env) : Session :=
  { surveyStarted := true, survey_user_id := some env.userId }

/-- `handle_visible_problems` toggle logic (src/handlers/survey_handlers.py,
lines 358-373; identically src/handlers.py lines 488-503): selecting
"none observed" clears everything else and becomes the sole selection;
any other option first removes "none observed" then toggles its membership. -/
def toggleProblem (problems : List String) (problem : String) : List String :=
  if problem = PROBLEM_NONE then [PROBLEM_NONE]
  else
    let ps := problems.erase PROBLEM_NONE
    if problem ∈ ps then ps.erase problem else ps ++ [problem]

/-- `handle_location` (lines 131-167): stores the location, the user id, the
current date, the resolved province and its underscore form. -/
def handleLocation (env : Env) (s : Session) (lat lon : Int)
    (resolvedProvince : Option String) : Session × BotState :=
  let localFolder := match resolvedProvince with
    | some p => pyReplaceChar p ' ' "_"
    | none => "Unknown_Location"
  ({ s with location := some (lat, lon),
            survey_user_id := some env.userId,
            date_str := some env.today,
            local_folder := some localFolder,
            province := resolvedProvince }, .farmNumber)

/-- Destination folder convention built in `handle_farm_number`
(src/handlers/survey_handlers.py, lines 181-194):
`{province}/{provinceCode}-{usernameClean}-{farmNumber:02d}/{YYYYMMDD}`. -/
def driveFolderPath (province usernameClean : String) (farmNumber : Nat)
    (dateStr : String) : String :=
  province ++ "/" ++
    (get_province_code province ++ "-" ++ usernameClean ++ "-" ++ pad2 farmNumber) ++
    "/" ++ pyReplaceChar dateStr '-' ""

/-- `handle_farm_number` (lines 172-205): records the farm number and derives
the Drive destination path.  (`user_data.get('province', 'Unknown')` collapses
to `getD "Unknown"`; in every reachable run the `province` key was set by
`handle_location` first.) -/
def handleFarmNumber (env : Env) (s : Session) (n : Nat) : Session × BotState :=
  let province := s.province.getD "Unknown"
  let dateStr := s.date_str.getD env.today
  let usernameClean := pyReplaceChar env.username ' ' "_"
  ({ s with farm_number := some n,
            drive_folder := some (driveFolderPath province usernameClean n dateStr) },
   .rainfall)

/-- `handle_rainfall` (lines 208-234): `"yes"` branches to the intensity
question, anything else writes the N/A sentinel and skips to soil roughness. -/
def handleRainfall (s : Session) (v : String) : Session × BotState :=
  if v = "yes" then
    ({ s with rainfall := some v }, .rainfallIntensity)
  else
    ({ s with rainfall := some v, rainfall_intensity := some VALUE_NA }, .soilRoughness)

/-- `handle_visible_problems` (lines 335-381): `"done"` advances to the
fertilizer question; every other value toggles the multi-select and re-emits
the prompt without advancing. -/
def handleVisibleProblems (s : Session) (v : String) : Session × BotState :=
  if v = PROBLEM_DONE then (s, .fertilizer)
  else
    let upd := toggleProblem (s.visible_problems.getD []) v
    ({ s with visible_problems := some upd }, .visibleProblems)

/-- `handle_fertilizer` (lines 384-413): `"yes"` asks for the fertilizer type
(remaining in the `FERTILIZER` dispatch state, where the `fert_type_` pattern
routes to `handle_fertilizer_type`); anything else writes the N/A sentinel
and skips to the herbicide question. -/
def handleFertilizer (s : Session) (v : String) : Session × BotState :=
  if v = "yes" then
    ({ s with fertilizer := some v }, .fertilizer)
  else
    ({ s with fertilizer := some v, fertilizer_type := some VALUE_NA }, .herbicide)

/-- `handle_stress_events` (lines 471-517): records the answer, fires the
CSV sink as a detached task (a side effect outside this model), resets the
photo counter and ends the conversation. -/
def handleStressEvents (s : Session) (v : String) : Session × BotState :=
  ({ s with stress_events := some v, photo_count := some 0 }, .complete)

/-- One dispatch step of the `ConversationHandler` configured in
`src/main.py` (lines 308-333): the current state selects the handler; in the
`FERTILIZER` state the `fert_type_` callback pattern routes to
`handle_fertilizer_type`.  A (state, event) pair no reachable prompt can
produce is dropped with the state unchanged, matching the dispatcher
ignoring it. -/
def step (env : Env) (s : Session) : BotState → Ev → Session × BotState
  | .language, .lang v => ({ s with language := some v }, .location)
  | .location, .loc lat lon prov => handleLocation env s lat lon prov
  | .farmNumber, .farm n => handleFarmNumber env s n
  | .rainfall, .rainfall v => handleRainfall s v
  | .rainfallIntensity, .intensity v =>
      ({ s with rainfall_intensity := some v }, .soilRoughness)
  | .soilRoughness, .soil v => ({ s with soil_roughness := some v }, .growthStage)
  | .growthStage, .growth v => ({ s with growth_stage := some v }, .waterStatus)
  | .waterStatus, .water v => ({ s with water_status := some v }, .overallHealth)
  | .overallHealth, .health v =>
      ({ s with overall_health := some v, visible_problems := some [] }, .visibleProblems)
  | .visibleProblems, .problem v => handleVisibleProblems s v
  | .fertilizer, .fert v => handleFertilizer s v
  | .fertilizer, .fertType v => ({ s with fertilizer_type := some v }, .herbicide)
  | .herbicide, .herb v => ({ s with herbicide := some v }, .pesticide)
  | .pesticide, .pest v => ({ s with pesticide := some v }, .stressEvents)
  | .stressEvents, .stress v => handleStressEvents s v
  | st, _ => (s, st)

/-- Run a sequence of inbound events through the machine. -/
def runEv (env : Env) (p : Session × BotState) (evs : List Ev) : Session × BotState :=
  evs.foldl (fun q e => step env q.1 q.2 e) p

/-! ## Canonical event sequences

A valid event sequence following the canonical state order is determined by
the user's choices: one value per single-select question, a list of toggles
for the multi-select loop, with the two conditional branches driven by the
rainfall and fertilizer answers. -/

structure Choices where
  lang : String
  lat : Int
  lon : Int
  province : String
  farm : Nat
  rainfall : String
  intensity : String
  soil : String
  growth : String
  water : String
  health : String
  problemToggles : List String
  fertilizer : String
  fertType : String
  herbicide : String
  pesticide : String
  stress : String
  deriving DecidableEq, Repr

def canonicalEvents (c : Choices) : List Ev :=
  [.lang c.lang, .loc c.lat c.lon (some c.province), .farm c.farm, .rainfall c.rainfall] ++
  (if c.rainfall = "yes" then [.intensity c.intensity] else []) ++
  [.soil c.soil, .growth c.growth, .water c.water, .health c.health] ++
  c.problemToggles.map .problem ++
  [.problem PROBLEM_DONE, .fert c.fertilizer] ++
  (if c.fertilizer = "yes" then [.fertType c.fertType] else []) ++
  [.herb c.herbicide, .pest c.pesticide, .stress c.stress]

/-- Every chosen value is drawn from its state's fixed option set. -/
def wellFormedChoices (c : Choices) : Bool :=
  (c.lang == "en" || c.lang == "km") &&
  (c.rainfall == "yes" || c.rainfall == "no") &&
  RAINFALL_INTENSITY_OPTIONS.contains c.intensity &&
  SOIL_OPTIONS.contains c.soil &&
  GROWTH_STAGE_KEYS.contains c.growth &&
  WATER_STATUS_OPTIONS.contains c.water &&
  HEALTH_OPTIONS.contains c.health &&
  c.problemToggles.all (fun t => PROBLEM_OPTIONS.contains t) &&
  YES_NO_REMEMBER_OPTIONS.contains c.fertilizer &&
  FERTILIZER_TYPE_OPTIONS.contains c.fertType &&
  YES_NO_REMEMBER_OPTIONS.contains c.herbicide &&
  YES_NO_REMEMBER_OPTIONS.contains c.pesticide &&
  STRESS_EVENT_OPTIONS.contains c.stress

/-- The claim's notion of a populated scalar answer: set, and holding either
a genuine option or the N/A sentinel. -/
def fieldHoldsB (f : Option String) (options : List String) : Bool :=
  match f with
  | some v => options.contains v || v == VALUE_NA
  | none => false

/-- The population property exactly as the claim states it, including for the
multi-select field: `visible_problems` must hold a genuine selection or the
sentinel, so an empty selection set does not qualify. -/
def claimPopulated (s : Session) : Bool :=
  s.farm_number.isSome &&
  fieldHoldsB s.rainfall ["yes", "no"] &&
  fieldHoldsB s.rainfall_intensity RAINFALL_INTENSITY_OPTIONS &&
  fieldHoldsB s.soil_roughness SOIL_OPTIONS &&
  fieldHoldsB s.growth_stage GROWTH_STAGE_KEYS &&
  fieldHoldsB s.water_status WATER_STATUS_OPTIONS &&
  fieldHoldsB s.overall_health HEALTH_OPTIONS &&
  (match s.visible_problems with
   | some l => !l.isEmpty && l.all (fun x => PROBLEM_OPTIONS.contains x || x == VALUE_NA)
   | none => false) &&
  fieldHoldsB s.fertilizer YES_NO_REMEMBER_OPTIONS &&
  fieldHoldsB s.fertilizer_type FERTILIZER_TYPE_OPTIONS &&
  fieldHoldsB s.herbicide YES_NO_REMEMBER_OPTIONS &&
  fieldHoldsB s.pesticide YES_NO_REMEMBER_OPTIONS &&
  fieldHoldsB s.stress_events STRESS_EVENT_OPTIONS

/-- Population as the code actually guarantees it: every scalar field is
assigned a genuine option or the sentinel, and `visible_problems` is assigned
a set of genuine options that may be empty. -/
def amendedPopulated (s : Session) : Bool :=
  s.farm_number.isSome &&
  fieldHoldsB s.rainfall ["yes", "no"] &&
  fieldHoldsB s.rainfall_intensity RAINFALL_INTENSITY_OPTIONS &&
  fieldHoldsB s.soil_roughness SOIL_OPTIONS &&
  fieldHoldsB s.growth_stage GROWTH_STAGE_KEYS &&
  fieldHoldsB s.water_status WATER_STATUS_OPTIONS &&
  fieldHoldsB s.overall_health HEALTH_OPTIONS &&
  (match s.visible_problems with
   | some l => l.all (fun x => PROBLEM_OPTIONS.contains x)
   | none => false) &&
  fieldHoldsB s.fertilizer YES_NO_REMEMBER_OPTIONS &&
  fieldHoldsB s.fertilizer_type FERTILIZER_TYPE_OPTIONS &&
  fieldHoldsB s.herbicide YES_NO_REMEMBER_OPTIONS &&
  fieldHoldsB s.pesticide YES_NO_REMEMBER_OPTIONS &&
  fieldHoldsB s.stress_events STRESS_EVENT_OPTIONS

/-! ## Restart handling

Two handler variants live in the repository.  `src/main.py` imports from the
`handlers` package, so `src/handlers/survey_handlers.py` is the active
(modular) variant; `src/handlers.py` is the legacy variant.  The "add new
farm" phrases come from translation files outside `src/`, so the match is
parameterized over the phrase strings; the Python test is substring
containment (`phrase in message_text`). -/

/-- `handle_add_new_farm` (src/handlers/survey_handlers.py, lines 67-89):
on a phrase match it performs `user_data.clear()` — discarding `language`
along with everything else — re-creates the empty survey dict and the user
id, and re-enters at `LANGUAGE`; otherwise it ends the conversation. -/
def handleAddNewFarmModular (env : Env) (phraseEn phraseKm : String)
    (messageText : String) (s : Session) : Session × BotState :=
  if containsSub messageText phraseEn || containsSub messageText phraseKm then
    (startSession env, .language)
  else
    (s, .complete)

/-- `handle_add_new_farm` (src/handlers.py, lines 87-115): on a phrase match
it saves `language` (defaulting to `"en"`), clears everything else, and
re-enters at `FARM_NUMBER`. -/
def handleAddNewFarmLegacy (phrases : List String)
    (messageText : String) (s : Session) : Session × BotState :=
  if phrases.any (fun p => containsSub messageText p) then
    ({ language := some (s.language.getD "en"), surveyStarted := true }, .farmNumber)
  else
    (s, .complete)

/-! ## Upload queue (src/services/upload_queue.py)

The queue is an `asyncio.Queue` of `UploadTask`s (with `None` as the shutdown
sentinel) serviced by a single worker coroutine.  The model is a trace
semantics at the granularity of one worker loop iteration: `QOp.add` is
`add_task`, `QOp.stop` is `stop()` (which sets `_is_running = False` and then
enqueues the sentinel), and `QOp.work` executes one iteration of `_worker`'s
`while self._is_running` loop.  `processed` records, in order, the
`drive_service.upload_file` calls the Remote Storage Gateway observes. -/

structure UploadTask where
  chat_id : Nat
  photo_num : Nat
  local_path : String
  drive_folder : String
  deriving DecidableEq, Repr

inductive QOp where
  | add (t : UploadTask)
  | work
  | stop
  deriving DecidableEq, Repr

structure QState where
  queue : List (Option UploadTask)
  running : Bool
  exited : Bool
  processed : List UploadTask
  deriving DecidableEq, Repr

def qstep (s : QState) : QOp → QState
  | .add t => { s with queue := s.queue ++ [some t] }
  | .stop => { s with running := false, queue := s.queue ++ [none] }
  | .work =>
    if s.exited then s
    else if !s.running then { s with exited := true }
    else
      match s.queue with
      | [] => s
      | none :: rest => { s with queue := rest, exited := true }
      | some t :: rest => { s with queue := rest, processed := s.processed ++ [t] }

/-- Initial state: empty queue with the worker started (as `add_task` does
lazily on the first task). -/
def qInit : QState := ⟨[], true, false, []⟩

def qrun (ops : List QOp) : QState := ops.foldl qstep qInit

/-- The tasks enqueued by a trace, in arrival order. -/
def enqueuedTasks : List QOp → List UploadTask
  | [] => []
  | .add t :: rest => t :: enqueuedTasks rest
  | _ :: rest => enqueuedTasks rest

/-! ## Retry wrapper (src/utils/retry.py)

`retry(max_attempts, backoff_base, exceptions)` re-invokes the wrapped
operation; a listed ("transient") exception is retried after sleeping
`backoff_base ** (attempt - 1)` seconds unless the attempt was the last, a
non-listed exception propagates immediately, and after the last listed
failure the last exception is re-raised.  The model executes against a
schedule: entry `i` of the list is what invocation `i+1` would do, and the
list's length is `max_attempts` (attempts beyond a success or a non-listed
failure are never invoked).  Delays are exact rationals. -/

inductive Outcome (ε α : Type) where
  | ok (v : α)
  | transient (e : ε)
  | fatal (e : ε)
  deriving DecidableEq, Repr

inductive RetryExc (ε : Type) where
  | listed (e : ε)
  | unlisted (e : ε)
  | noAttempt
  deriving DecidableEq, Repr

inductive RetryOutcome (ε α : Type) where
  | success (v : α)
  | raised (k : RetryExc ε)
  deriving DecidableEq, Repr

structure RetryRun (ε α : Type) where
  outcome : RetryOutcome ε α
  invocations : Nat
  sleeps : List ℚ
  deriving DecidableEq, Repr

/-- One pass of the `for attempt in range(1, max_attempts + 1)` loop; `i` is
the zero-based attempt index, so the sleep after a non-final listed failure
is `b ^ i = backoff_base ^ (attempt - 1)`. -/
def retryAux (b : ℚ) : Nat → List (Outcome ε α) → RetryRun ε α
  | _, [] => ⟨.raised .noAttempt, 0, []⟩
  | i, o :: rest =>
    match o with
    | .ok v => ⟨.success v, 1, []⟩
    | .fatal e => ⟨.raised (.unlisted e), 1, []⟩
    | .transient e =>
      if rest.isEmpty then ⟨.raised (.listed e), 1, []⟩
      else
        let res := retryAux b (i + 1) rest
        ⟨res.outcome, res.invocations + 1, b ^ i :: res.sleeps⟩

def retryExec (b : ℚ) (schedule : List (Outcome ε α)) : RetryRun ε α :=
  retryAux b 0 schedule

/-! ## Remote Storage Gateway (src/services/drive_service.py)

The backend is a list of remote folders plus a fresh-id counter; the gateway
state adds the process-lifetime `(parent_id, folder_name) → id` cache (keyed
by the `f"{parent_id}/{folder_name}"` string, as in the source) and a counter
of backend API calls, so that a cache hit is visibly backend-free. -/

structure DriveFolder where
  fid : Nat
  name : String
  parent : Nat
  trashed : Bool
  deriving DecidableEq, Repr

structure DriveBackend where
  folders : List DriveFolder
  nextId : Nat
  deriving DecidableEq, Repr

structure DriveState where
  cache : List (String × Nat)
  backend : DriveBackend
  queries : Nat
  deriving DecidableEq, Repr

def cacheKey (parentId : Nat) (name : String) : String :=
  toString parentId ++ "/" ++ name

/-- The `files().list` query: first existing non-trashed folder with the
given name under the given parent. -/
def backendFind (be : DriveBackend) (name : String) (parentId : Nat) : Option Nat :=
  (be.folders.find? (fun f => f.name == name && f.parent == parentId && !f.trashed)).map
    (fun f => f.fid)

/-- `DriveService._get_or_create_folder` (lines 84-139): cache check, then
find-or-create against the backend, caching the result.  (Its `@retry`
wrapper only changes behavior when the backend raises, which this
deterministic backend model never does.) -/
def getOrCreateFolder (name : String) (parentId : Nat) (s : DriveState) :
    Nat × DriveState :=
  let key := cacheKey parentId name
  match s.cache.lookup key with
  | some fid => (fid, s)
  | none =>
    match backendFind s.backend name parentId with
    | some fid =>
      (fid, { s with cache := (key, fid) :: s.cache, queries := s.queries + 1 })
    | none =>
      let fid := s.backend.nextId
      (fid, { cache := (key, fid) :: s.cache,
              backend := { folders := s.backend.folders ++ [⟨fid, name, parentId, false⟩],
                           nextId := s.backend.nextId + 1 },
              queries := s.queries + 2 })

def createFolderPathAux (parts : List String) (parentId : Nat) (s : DriveState) :
    Nat × DriveState :=
  match parts with
  | [] => (parentId, s)
  | p :: rest =>
    let r := getOrCreateFolder p parentId s
    createFolderPathAux rest r.1 r.2

/-- `DriveService.create_folder_path` (lines 141-157): resolves each `/`
segment in order, starting from the configured root folder id. -/
def create_folder_path (rootId : Nat) (folderPath : String) (s : DriveState) :
    Nat × DriveState :=
  createFolderPathAux (folderPath.splitOn "/") rootId s

/-- `DriveService.clear_folder_cache` (lines 277-280). -/
def clear_folder_cache (s : DriveState) : DriveState :=
  { s with cache := [] }

/-! ## upload_file (src/services/drive_service.py, lines 159-208)

The Python exception taxonomy relevant here: `HttpError` has its own except
clause; every other exception reaching `upload_file` is caught by
`except Exception`.  `RETRYABLE_EXCEPTIONS` (line 22) lists the kinds the
retry wrapper treats as transient. -/

inductive PyExc where
  | httpError (status : Nat) (msg : String)
  | connError (msg : String)
  | sslError (msg : String)
  | osError (msg : String)
  | timeoutError (msg : String)
  | otherExc (msg : String)
  deriving DecidableEq, Repr

/-- Membership in `RETRYABLE_EXCEPTIONS = (HttpError, ConnectionError,
ssl.SSLError, OSError, TimeoutError)`. -/
def isRetryable : PyExc → Bool
  | .otherExc _ => false
  | _ => true

/-- Python's `str(e)`. -/
def excStr : PyExc → String
  | .httpError _ msg => msg
  | .connError msg => msg
  | .sslError msg => msg
  | .osError msg => msg
  | .timeoutError msg => msg
  | .otherExc msg => msg

structure UploadResult where
  success : Bool
  file_id : Option String := none
  web_link : Option String := none
  error : Option String := none
  deriving DecidableEq, Repr

/-- The two except clauses of `upload_file`: `HttpError` gets the
status-tagged message, any other exception the generic `str(e)` message.
Every `PyExc` is an `Exception`, so nothing re-raises. -/
def catchUpload : PyExc → UploadResult
  | .httpError status msg =>
    { success := false, error := some ("HttpError " ++ toString status ++ ": " ++ msg) }
  | e => { success := false, error := some (excStr e) }

/-- `upload_file(file_path, folder_path)`.  The effectful sub-steps enter as
parameters: whether the local file exists, the outcome of
`create_folder_path` (which re-raises the last transient error once its
retry wrapper is exhausted), and the outcome of the `files().create` upload
call.  The return type distinguishes a returned `UploadResult` (`Except.ok`)
from an exception escaping to the caller (`Except.error`). -/
def upload_file (filePath : String) (fileExists : Bool)
    (folderRes : Except PyExc Nat) (createRes : Except PyExc (String × String)) :
    Except PyExc UploadResult :=
  if !fileExists then
    .ok { success := false, error := some ("File not found: " ++ filePath) }
  else
    match folderRes with
    | .error e => .ok (catchUpload e)
    | .ok _ =>
      match createRes with
      | .error e => .ok (catchUpload e)
      | .ok fi => .ok { success := true, file_id := some fi.1, web_link := some fi.2 }

/-! ## Photo filename conventions -/

/-- The filename built by `handle_photo`
(src/handlers/photo_handlers.py line 52; identically src/main.py line 250):
`{date_str}_{province}_{username_clean}_Farm{farm:02d}_{photo_num:02d}.jpg`
with `date_str` in dashed `YYYY-MM-DD` form and `province` the full
underscore-joined province name. -/
def photoFilename (dateStr province usernameClean : String)
    (farmNumber seq : Nat) : String :=
  dateStr ++ "_" ++ province ++ "_" ++ usernameClean ++ "_Farm" ++
    pad2 farmNumber ++ "_" ++ pad2 seq ++ ".jpg"

/-- Modelled from the spec: the photo filename convention stated in §6,
`{regionCode}-{user}-{farmNumber:02d}_{YYYYMMDD}_{sequence:02d}.jpg`, built
verbatim from the spec's words for comparison with the source's
`photoFilename`. -/
def specPhotoFilename (regionCode user : String) (farmNumber : Nat)
    (dateCompact : String) (seq : Nat) : String :=
  regionCode ++ "-" ++ user ++ "-" ++ pad2 farmNumber ++ "_" ++ dateCompact ++
    "_" ++ pad2 seq ++ ".jpg"

/-- Modelled from the spec: the remote folder layout of §6,
`region/{regionCode}-{user}-{farmNumber:02d}/{YYYYMMDD}`. -/
def specFolderLayout (region regionCode user : String) (farmNumber : Nat)
    (dateCompact : String) : String :=
  region ++ "/" ++ regionCode ++ "-" ++ user ++ "-" ++ pad2 farmNumber ++
    "/" ++ dateCompact

/-! ## Helper lemmas: the visible-problems multi-select -/

/-- Invariant of every reachable selection list: no duplicates, and
"none observed" only ever appears as the sole selection. -/
def ProblemsInv (l : List String) : Prop :=
  l.Nodup ∧ (PROBLEM_NONE ∈ l → l = [PROBLEM_NONE])

lemma problemsInv_nil : ProblemsInv [] := by
  constructor
  · exact List.nodup_nil
  · intro h; cases h

lemma none_not_mem_erase {l : List String} (h : ProblemsInv l) :
    PROBLEM_NONE ∉ l.erase PROBLEM_NONE := by
  intro hmem
  have := (List.Nodup.mem_erase_iff h.1).mp hmem
  exact this.1 rfl

lemma toggle_no_none {l : List String} {p : String} (h : ProblemsInv l)
    (hp : p ≠ PROBLEM_NONE) : PROBLEM_NONE ∉ toggleProblem l p := by
  unfold toggleProblem
  simp only [if_neg hp]
  intro hmem
  by_cases hin : p ∈ l.erase PROBLEM_NONE
  · simp only [if_pos hin] at hmem
    exact none_not_mem_erase h (List.erase_subset _ _ hmem)
  · simp only [if_neg hin] at hmem
    rcases List.mem_append.mp hmem with h1 | h1
    · exact none_not_mem_erase h h1
    · simp only [List.mem_singleton] at h1
      exact hp h1.symm

lemma toggle_preserves_inv {l : List String} (p : String) (h : ProblemsInv l) :
    ProblemsInv (toggleProblem l p) := by
  unfold toggleProblem
  by_cases hn : p = PROBLEM_NONE
  · simp only [if_pos hn]
    exact ⟨List.nodup_singleton _, fun _ => rfl⟩
  · simp only [if_neg hn]
    by_cases hin : p ∈ l.erase PROBLEM_NONE
    · simp only [if_pos hin]
      refine ⟨(h.1.erase PROBLEM_NONE).erase p, fun hmem => ?_⟩
      exact absurd (List.erase_subset _ _ hmem) (none_not_mem_erase h)
    · simp only [if_neg hin]
      refine ⟨?_, fun hmem => ?_⟩
      · rw [List.nodup_append]
        refine ⟨h.1.erase PROBLEM_NONE, List.nodup_singleton _, ?_⟩
        intro a ha hb
        simp only [List.mem_singleton] at hb
        exact hin (hb ▸ ha)
      · exfalso
        rcases List.mem_append.mp hmem with h1 | h1
        · exact none_not_mem_erase h h1
        · simp only [List.mem_singleton] at h1
          exact hn h1.symm

lemma toggle_twice_perm {l : List String} {p : String} (h : ProblemsInv l)
    (hp : p ≠ PROBLEM_NONE) :
    (toggleProblem (toggleProblem l p) p).Perm (l.erase PROBLEM_NONE) := by
  have hps : PROBLEM_NONE ∉ l.erase PROBLEM_NONE := none_not_mem_erase h
  by_cases hin : p ∈ l.erase PROBLEM_NONE
  · have h1 : toggleProblem l p = (l.erase PROBLEM_NONE).erase p := by
      unfold toggleProblem; simp [if_neg hp, if_pos hin]
    have hnodup : (l.erase PROBLEM_NONE).Nodup := h.1.erase PROBLEM_NONE
    have hnone2 : PROBLEM_NONE ∉ (l.erase PROBLEM_NONE).erase p :=
      fun hm => hps (List.erase_subset _ _ hm)
    have hp2 : p ∉ (l.erase PROBLEM_NONE).erase p := by
      intro hm
      exact ((List.Nodup.mem_erase_iff hnodup).mp hm).1 rfl
    have h2 : toggleProblem (toggleProblem l p) p =
        ((l.erase PROBLEM_NONE).erase p) ++ [p] := by
      rw [h1]; unfold toggleProblem
      rw [if_neg hp, List.erase_of_not_mem hnone2, if_neg hp2]
    rw [h2]
    exact (List.perm_append_singleton _ _).trans (List.perm_cons_erase hin).symm
  · have h1 : toggleProblem l p = (l.erase PROBLEM_NONE) ++ [p] := by
      unfold toggleProblem; simp [if_neg hp, if_neg hin]
    have hnone2 : PROBLEM_NONE ∉ (l.erase PROBLEM_NONE) ++ [p] := by
      intro hm
      rcases List.mem_append.mp hm with h2 | h2
      · exact hps h2
      · simp only [List.mem_singleton] at h2
        exact hp h2.symm
    have hp2 : p ∈ (l.erase PROBLEM_NONE) ++ [p] := by
      exact List.mem_append.mpr (Or.inr (List.mem_singleton.mpr rfl))
    have h2 : toggleProblem (toggleProblem l p) p = l.erase PROBLEM_NONE := by
      rw [h1]; unfold toggleProblem
      rw [if_neg hp, List.erase_of_not_mem hnone2, if_pos hp2,
        List.erase_append_right _ hin]
      simp
    rw [h2]

lemma toggle_mem_iff {l : List String} {p : String} (h : ProblemsInv l)
    (hp : p ≠ PROBLEM_NONE) :
    p ∈ toggleProblem l p ↔ p ∉ l.erase PROBLEM_NONE := by
  unfold toggleProblem
  simp only [if_neg hp]
  by_cases hin : p ∈ l.erase PROBLEM_NONE
  · simp only [if_pos hin]
    constructor
    · intro hm
      exact absurd rfl ((List.Nodup.mem_erase_iff (h.1.erase PROBLEM_NONE)).mp hm).1
    · intro hm; exact absurd hin hm
  · simp only [if_neg hin]
    constructor
    · intro _; exact hin
    · intro _; exact List.mem_append.mpr (Or.inr (List.mem_singleton.mpr rfl))

/-! ## Claim C3 -/

/-- C3, counterexample: the claim "toggling any visible_problems option twice
in succession returns the selection set to its prior state" fails on the
reachable selection set {"none observed"} (reached by selecting
"none observed" from the empty set): toggling "yellowing" twice from it
yields the empty set, not {"none observed"}, because the first toggle also
removes "none observed" and the second does not put it back. -/
theorem visible_problems_toggle_counterexample :
    toggleProblem ([] : List String) PROBLEM_NONE = [PROBLEM_NONE] ∧
    toggleProblem (toggleProblem [PROBLEM_NONE] "yellowing") "yellowing" = [] ∧
    toggleProblem (toggleProblem [PROBLEM_NONE] "yellowing") "yellowing" ≠
      [PROBLEM_NONE] := by
  decide

/-- C3, amended: in the VISIBLE_PROBLEMS multi-select state, for every
reachable selection set (no duplicates, "none observed" only ever sole),
toggling any option other than "none observed" twice in succession returns
the selection set to its prior state with "none observed" removed — in
particular to exactly its prior state whenever "none observed" was not
selected; selecting "none observed" after any other selections results in
the selection set equal to exactly {"none observed"}; selecting any other
option removes "none observed" if present then toggles that option's
membership; and the state never auto-advances — only the distinguished
"done" event advances to FERTILIZER. -/
theorem visible_problems_toggle_amended (l : List String) (p : String)
    (hinv : ProblemsInv l) (hp : p ≠ PROBLEM_NONE) :
    (toggleProblem (toggleProblem l p) p).Perm (l.erase PROBLEM_NONE) ∧
    (PROBLEM_NONE ∉ l → (toggleProblem (toggleProblem l p) p).Perm l) ∧
    (∀ l2 : List String, toggleProblem l2 PROBLEM_NONE = [PROBLEM_NONE]) ∧
    PROBLEM_NONE ∉ toggleProblem l p ∧
    (p ∈ toggleProblem l p ↔ p ∉ l.erase PROBLEM_NONE) ∧
    (∀ env s v, v ≠ PROBLEM_DONE →
      (step env s .visibleProblems (.problem v)).2 = .visibleProblems) ∧
    (∀ env s, (step env s .visibleProblems (.problem PROBLEM_DONE)).2 =
      .fertilizer) := by
  refine ⟨toggle_twice_perm hinv hp, ?_, ?_, toggle_no_none hinv hp,
    toggle_mem_iff hinv hp, ?_, ?_⟩
  · intro hnone
    have := toggle_twice_perm hinv hp
    rwa [List.erase_of_not_mem hnone] at this
  · intro l2
    unfold toggleProblem
    simp
  · intro env s v hv
    simp [step, handleVisibleProblems, hv]
  · intro env s
    simp [step, handleVisibleProblems]

/-- C3, witness: the amended theorem applied to the reachable selection set
["yellowing"] and the option "brown_spots". -/
theorem visible_problems_toggle_amended_witness :
    (toggleProblem (toggleProblem ["yellowing"] "brown_spots")
      "brown_spots").Perm (["yellowing"].erase PROBLEM_NONE) :=
  (visible_problems_toggle_amended ["yellowing"] "brown_spots"
    (by constructor <;> decide) (by decide)).1

/-! ## Claim C10 -/

/-- C10: selecting "none observed" when it is already the sole selection
leaves the selection set unchanged at exactly {"none observed"}; unlike
every other option it is idempotent rather than a toggle (re-selecting it
never removes it), and it leaves the set only when a different option is
selected (any such selection removes it). -/
theorem none_observed_idempotent (l : List String) (q : String)
    (hinv : ProblemsInv l) (hq : q ≠ PROBLEM_NONE) :
    toggleProblem [PROBLEM_NONE] PROBLEM_NONE = [PROBLEM_NONE] ∧
    (∀ l2 : List String, toggleProblem l2 PROBLEM_NONE = [PROBLEM_NONE]) ∧
    (∀ l2 : List String,
      toggleProblem (toggleProblem l2 PROBLEM_NONE) PROBLEM_NONE =
        toggleProblem l2 PROBLEM_NONE) ∧
    (∀ l2 : List String, PROBLEM_NONE ∈ toggleProblem l2 PROBLEM_NONE) ∧
    PROBLEM_NONE ∉ toggleProblem l q := by
  refine ⟨by decide, ?_, ?_, ?_, toggle_no_none hinv hq⟩
  · intro l2
    unfold toggleProblem
    simp
  · intro l2
    unfold toggleProblem
    simp
  · intro l2
    unfold toggleProblem
    simp

/-- C10, witness: applied to the reachable sole selection {"none observed"}
and the different option "wilting". -/
theorem none_observed_idempotent_witness :
    PROBLEM_NONE ∉ toggleProblem [PROBLEM_NONE] "wilting" :=
  (none_observed_idempotent [PROBLEM_NONE] "wilting"
    (by constructor <;> decide) (by decide)).2.2.2.2

/-! ## Claim C9 -/

/-- C9, counterexample: for the survey of user "alice" at farm 3 in
Phnom Penh on 2025-12-23, photo 1, the filename the code builds is
"2025-12-23_Phnom_Penh_alice_Farm03_01.jpg", not the spec convention's
"PNH-alice-03_20251223_01.jpg". -/
theorem photo_filename_counterexample :
    photoFilename "2025-12-23" "Phnom_Penh" "alice" 3 1 =
      "2025-12-23_Phnom_Penh_alice_Farm03_01.jpg" ∧
    specPhotoFilename (get_province_code "Phnom Penh") "alice" 3 "20251223" 1 =
      "PNH-alice-03_20251223_01.jpg" ∧
    photoFilename "2025-12-23" "Phnom_Penh" "alice" 3 1 ≠
      specPhotoFilename (get_province_code "Phnom Penh") "alice" 3 "20251223" 1 := by
  decide

/-- C9, amended: every accepted photo is filed under
`{YYYY-MM-DD}_{province}_{user}_Farm{farmNumber:02d}_{sequence:02d}.jpg`
(dashed date, full underscore-joined province name, "Farm" label, farm number
zero-padded to two digits, 1-based photo sequence zero-padded to two digits);
the spec's `{regionCode}-{user}-{farmNumber:02d}` / `{YYYYMMDD}` pattern is
the *destination folder* convention — the machine derives the drive folder
`{province}/{regionCode}-{user}-{farmNumber:02d}/{YYYYMMDD}` when the farm
number is chosen. -/
theorem photo_filename_amended :
    (∀ d p u f q, photoFilename d p u f q =
      d ++ "_" ++ p ++ "_" ++ u ++ "_Farm" ++ pad2 f ++ "_" ++ pad2 q ++ ".jpg") ∧
    (∀ province usernameClean farm dateStr,
      driveFolderPath province usernameClean farm dateStr =
        specFolderLayout province (get_province_code province) usernameClean farm
          (pyReplaceChar dateStr '-' "")) ∧
    (∀ env lang lat lon prov n,
      ((runEv env (startSession env, .language)
          [.lang lang, .loc lat lon (some prov), .farm n]).1).drive_folder =
        some (specFolderLayout prov (get_province_code prov)
          (pyReplaceChar env.username ' ' "_") n (pyReplaceChar env.today '-' ""))) := by
  refine ⟨fun d p u f q => rfl, ?_, ?_⟩
  · intro province usernameClean farm dateStr
    simp [driveFolderPath, specFolderLayout, String.append_assoc]
  · intro env lang lat lon prov n
    simp [runEv, step, handleLocation, handleFarmNumber, driveFolderPath,
      specFolderLayout, String.append_assoc]

/-! ## Claim C5 -/

/-- A concrete mid-survey session: language chosen, location shared, half the
answers in, two photos counted. -/
def midSurveySession : Session :=
  { language := some "km", surveyStarted := true, survey_user_id := some 7,
    location := some (11, 104), date_str := some "2025-12-23",
    province := some "Phnom Penh", local_folder := some "Phnom_Penh",
    drive_folder := some "Phnom Penh/PNH-alice-05/20251223",
    farm_number := some 5, rainfall := some "no",
    rainfall_intensity := some "N/A", photo_count := some 2 }

/-- C5, counterexample: in the active (modular) handler variant the restart
signal runs `context.user_data.clear()`, which discards the `language` field
along with everything else — it is *not* preserved: from a mid-survey session
with language "km" the restart leaves the language unset (and re-enters at
LANGUAGE, which is also why the machine must re-ask it). -/
theorem restart_language_counterexample :
    midSurveySession.language = some "km" ∧
    (handleAddNewFarmModular ⟨7, "alice", "2025-12-23"⟩ "Add New Farm" "KM-PHRASE"
        "Add New Farm" midSurveySession).1.language = none ∧
    (handleAddNewFarmModular ⟨7, "alice", "2025-12-23"⟩ "Add New Farm" "KM-PHRASE"
        "Add New Farm" midSurveySession).2 = .language := by
  decide

/-- C5, amended: when the restart phrase matches mid-survey, the modular
variant (src/handlers/survey_handlers.py, the one src/main.py dispatches to)
clears *all* session data — including `language` — and re-enters at LANGUAGE;
the legacy variant (src/handlers.py) preserves `language` (defaulting to
"en"), clears everything else, and re-enters at FARM_NUMBER.  In both
variants all answers, location, destination path and photo count are
discarded. -/
theorem restart_amended (env : Env) (phraseEn phraseKm msg msg2 : String)
    (phrases : List String) (s s2 : Session)
    (h1 : (containsSub msg phraseEn || containsSub msg phraseKm) = true)
    (h2 : phrases.any (fun p => containsSub msg2 p) = true) :
    handleAddNewFarmModular env phraseEn phraseKm msg s =
      (startSession env, .language) ∧
    (startSession env).language = none ∧
    (startSession env).farm_number = none ∧
    (startSession env).location = none ∧
    (startSession env).drive_folder = none ∧
    (startSession env).photo_count = none ∧
    (startSession env).rainfall = none ∧
    handleAddNewFarmLegacy phrases msg2 s2 =
      ({ language := some (s2.language.getD "en"), surveyStarted := true },
        .farmNumber) ∧
    (handleAddNewFarmLegacy phrases msg2 s2).1.language =
      some (s2.language.getD "en") ∧
    (handleAddNewFarmLegacy phrases msg2 s2).1.farm_number = none ∧
    (handleAddNewFarmLegacy phrases msg2 s2).1.location = none ∧
    (handleAddNewFarmLegacy phrases msg2 s2).1.drive_folder = none ∧
    (handleAddNewFarmLegacy phrases msg2 s2).1.photo_count = none := by
  have e1 : handleAddNewFarmModular env phraseEn phraseKm msg s =
      (startSession env, .language) := by
    unfold handleAddNewFarmModular
    rw [h1]
    simp
  have e2 : handleAddNewFarmLegacy phrases msg2 s2 =
      ({ language := some (s2.language.getD "en"), surveyStarted := true },
        .farmNumber) := by
    unfold handleAddNewFarmLegacy
    rw [h2]
    simp
  refine ⟨e1, rfl, rfl, rfl, rfl, rfl, rfl, e2, ?_, ?_, ?_, ?_, ?_⟩ <;>
    rw [e2]

/-- C5, witness: the amended theorem applied to the mid-survey session with a
matching restart message in both variants. -/
theorem restart_amended_witness :
    handleAddNewFarmModular ⟨7, "alice", "2025-12-23"⟩ "Add New Farm" "KM-PHRASE"
        "Add New Farm" midSurveySession =
      (startSession ⟨7, "alice", "2025-12-23"⟩, .language) :=
  (restart_amended ⟨7, "alice", "2025-12-23"⟩ "Add New Farm" "KM-PHRASE"
    "Add New Farm" "Survey Another Farm" ["Add New Farm", "Survey Another Farm"]
    midSurveySession midSurveySession (by decide) (by decide)).1

/-! ## Claim C6 -/

/-- C6, code bug: `stop()` sets `_is_running = False` *before* enqueueing the
shutdown sentinel, and the worker loop re-checks `while self._is_running` at
the top of every iteration — so with tasks t1, t2 still pending when `stop()`
is issued, the worker exits at its next loop check with both tasks and the
sentinel still in the queue: nothing enqueued before the sentinel is drained,
contradicting the documented cooperative drain-up-to-the-sentinel shutdown. -/
theorem stop_drops_pending_tasks :
    let t1 : UploadTask := ⟨1, 1, "downloads/a.jpg", "Phnom Penh/PNH-a-01/20251223"⟩
    let t2 : UploadTask := ⟨2, 2, "downloads/b.jpg", "Phnom Penh/PNH-b-02/20251223"⟩
    let final := qrun [.add t1, .add t2, .stop, .work, .work, .work]
    final.exited = true ∧
    final.processed = [] ∧
    final.queue = [some t1, some t2, none] ∧
    final.processed ≠ [t1, t2] := by
  decide

/-! ## Claim C1 -/

lemma qrun_aux (ops : List QOp) : ∀ s : QState,
    (ops.foldl qstep s).processed ++ (ops.foldl qstep s).queue.filterMap id =
      s.processed ++ s.queue.filterMap id ++ enqueuedTasks ops := by
  induction ops with
  | nil => intro s; simp [enqueuedTasks]
  | cons op rest ih =>
    intro s
    rw [List.foldl_cons, ih]
    have hstep : (qstep s op).processed ++ (qstep s op).queue.filterMap id ++
        enqueuedTasks rest =
        s.processed ++ s.queue.filterMap id ++ enqueuedTasks (op :: rest) := by
      cases op with
      | add t =>
        simp [qstep, enqueuedTasks, List.filterMap_append, List.append_assoc]
      | stop =>
        simp [qstep, enqueuedTasks, List.filterMap_append]
      | work =>
        have henq : enqueuedTasks (QOp.work :: rest) = enqueuedTasks rest := rfl
        rw [henq]
        by_cases h1 : s.exited
        · simp [qstep, h1]
        · by_cases h2 : s.running
          · rcases hq : s.queue with _ | ⟨ot, rest'⟩
            · simp [qstep, h1, h2, hq]
            · cases ot with
              | none => simp [qstep, h1, h2, hq, List.filterMap_cons]
              | some t =>
                simp [qstep, h1, h2, hq, List.filterMap_cons, List.append_assoc]
          · simp [qstep, h1, h2]
    exact hstep

lemma qrun_adds (ts : List UploadTask) : ∀ s : QState,
    (ts.map QOp.add).foldl qstep s = { s with queue := s.queue ++ ts.map some } := by
  induction ts with
  | nil => intro s; simp
  | cons t rest ih =>
    intro s
    rw [List.map_cons, List.foldl_cons, ih]
    simp [qstep, List.append_assoc]

lemma qrun_drain (ts : List UploadTask) : ∀ pr : List UploadTask,
    ((List.replicate ts.length QOp.work).foldl qstep
        ⟨ts.map some, true, false, pr⟩ : QState) =
      ⟨[], true, false, pr ++ ts⟩ := by
  induction ts with
  | nil => intro pr; simp
  | cons t rest ih =>
    intro pr
    rw [List.length_cons, List.replicate_succ, List.foldl_cons]
    have h1 : qstep ⟨(t :: rest).map some, true, false, pr⟩ QOp.work =
        ⟨rest.map some, true, false, pr ++ [t]⟩ := by
      simp [qstep]
    rw [h1, ih]
    simp

/-- C1: photos enqueued in order p1..pN — from arbitrarily interleaved
conversations and arbitrarily interleaved worker activity — are processed by
the single worker strictly in arrival order: at every point the sequence of
upload calls the Remote Storage Gateway has observed, followed by the tasks
still queued, is exactly the arrival sequence (so the observed calls are
always a prefix of it, one task at a time, with no parallel path); and once
the worker has drained the queue the observed sequence equals the arrival
sequence exactly. -/
theorem upload_queue_fifo_order (ops : List QOp) (ts : List UploadTask) :
    (qrun ops).processed ++ (qrun ops).queue.filterMap id = enqueuedTasks ops ∧
    (qrun (ts.map QOp.add ++ List.replicate ts.length QOp.work)).processed = ts := by
  constructor
  · have h := qrun_aux ops qInit
    simpa [qrun, qInit] using h
  · rw [qrun, List.foldl_append, qrun_adds]
    have h1 : ({ qInit with queue := qInit.queue ++ ts.map some } : QState) =
        ⟨ts.map some, true, false, []⟩ := by
      simp [qInit]
    rw [h1, qrun_drain]
    simp

/-! ## Claim C4 -/

/-- The backoff sleeps performed after `k` consecutive listed failures whose
first failed attempt has zero-based index `i`: `[b^i, b^(i+1), …]`. -/
def sleepList (b : ℚ) : Nat → Nat → List ℚ
  | _, 0 => []
  | i, k + 1 => b ^ i :: sleepList b (i + 1) k

/-- One-step unfolding of `retryAux` on a non-final listed failure. -/
lemma retryAux_cons_transient {ε α : Type} (b : ℚ) (i : Nat) (e : ε)
    (rest : List (Outcome ε α)) (hne : rest.isEmpty = false) :
    retryAux b i (Outcome.transient e :: rest) =
      ⟨(retryAux b (i + 1) rest).outcome,
       (retryAux b (i + 1) rest).invocations + 1,
       b ^ i :: (retryAux b (i + 1) rest).sleeps⟩ := by
  conv_lhs => rw [retryAux]
  rw [hne]
  simp

lemma retryAux_transient_ok {ε α : Type} (b : ℚ) (e : ε) (v : α) :
    ∀ (k i : Nat) (rest : List (Outcome ε α)),
    retryAux b i (List.replicate k (Outcome.transient e) ++ .ok v :: rest) =
      ⟨.success v, k + 1, sleepList b i k⟩ := by
  intro k
  induction k with
  | zero => intro i rest; simp [retryAux, sleepList]
  | succ k ih =>
    intro i rest
    rw [List.replicate_succ, List.cons_append]
    have hne : (List.replicate k (Outcome.transient e) ++
        Outcome.ok v :: rest).isEmpty = false := by simp
    rw [retryAux_cons_transient b i e _ hne, ih]
    simp [sleepList]

lemma retryAux_all_transient {ε α : Type} (b : ℚ) (e : ε) :
    ∀ (m i : Nat),
    retryAux b i (List.replicate (m + 1) (Outcome.transient e) :
        List (Outcome ε α)) =
      ⟨.raised (.listed e), m + 1, sleepList b i m⟩ := by
  intro m
  induction m with
  | zero => intro i; simp [retryAux, sleepList]
  | succ m ih =>
    intro i
    rw [List.replicate_succ]
    have hne : (List.replicate (m + 1) (Outcome.transient e) :
        List (Outcome ε α)).isEmpty = false := by simp
    rw [retryAux_cons_transient b i e _ hne, ih]
    simp [sleepList]

lemma retryAux_transient_fatal {ε α : Type} (b : ℚ) (e f : ε) :
    ∀ (t i : Nat) (rest : List (Outcome ε α)),
    retryAux b i (List.replicate t (Outcome.transient e) ++ .fatal f :: rest) =
      ⟨.raised (.unlisted f), t + 1, sleepList b i t⟩ := by
  intro t
  induction t with
  | zero => intro i rest; simp [retryAux, sleepList]
  | succ t ih =>
    intro i rest
    rw [List.replicate_succ, List.cons_append]
    have hne : (List.replicate t (Outcome.transient e) ++
        Outcome.fatal f :: rest).isEmpty = false := by simp
    rw [retryAux_cons_transient b i e _ hne, ih]
    simp [sleepList]

lemma sleepList_eq_range_map (b : ℚ) :
    ∀ (k i : Nat), sleepList b i k = (List.range k).map (fun j => b ^ (i + j)) := by
  intro k
  induction k with
  | zero => intro i; simp [sleepList]
  | succ k ih =>
    intro i
    rw [sleepList, List.range_succ_eq_map, List.map_cons, List.map_map, ih]
    have hfn : ((fun j => b ^ (i + j)) ∘ Nat.succ) = fun j => b ^ (i + 1 + j) := by
      funext j
      simp only [Function.comp]
      congr 1
      omega
    rw [hfn]
    simp

lemma sleepList_chain (b : ℚ) (hb : 1 < b) :
    ∀ (k i : Nat), (sleepList b i k).Chain' (· < ·) := by
  intro k
  induction k with
  | zero => intro i; simp [sleepList]
  | succ k ih =>
    intro i
    cases k with
    | zero => simp [sleepList]
    | succ k2 =>
      rw [sleepList, sleepList, List.chain'_cons]
      constructor
      · exact pow_lt_pow_right₀ hb (Nat.lt_succ_self i)
      · have h := ih (i + 1)
        rwa [sleepList] at h

/-- C4: for the retry wrapper with attempt limit `max_attempts` (the
schedule's length) and backoff base `b > 1`: an operation failing with a
listed transient kind exactly `k < max_attempts` times and then succeeding
reports success after exactly `k + 1` invocations, having slept
`b^(attempt-1)` after each failed attempt (no delay before attempt 1, and
the delays strictly increase); an operation failing with listed kinds on all
`max_attempts` attempts is invoked exactly `max_attempts` times, sleeps only
between attempts, and re-raises the last listed failure; a non-listed
failure kind propagates immediately with no further invocations. -/
theorem retry_wrapper_spec {ε α : Type} (b : ℚ) (hb : 1 < b) (e f : ε) (v : α)
    (k m t : Nat) (rest : List (Outcome ε α)) :
    retryExec b (List.replicate k (Outcome.transient e) ++ .ok v :: rest) =
      ⟨.success v, k + 1, sleepList b 0 k⟩ ∧
    sleepList b 0 k = (List.range k).map (fun j => b ^ j) ∧
    (sleepList b 0 k).Chain' (· < ·) ∧
    retryExec b (List.replicate (m + 1) (Outcome.transient e) :
        List (Outcome ε α)) =
      ⟨.raised (.listed e), m + 1, sleepList b 0 m⟩ ∧
    retryExec b (List.replicate t (Outcome.transient e) ++ .fatal f :: rest) =
      ⟨.raised (.unlisted f), t + 1, sleepList b 0 t⟩ := by
  refine ⟨retryAux_transient_ok b e v k 0 rest, ?_,
    sleepList_chain b hb k 0, retryAux_all_transient b e m 0,
    retryAux_transient_fatal b e f t 0 rest⟩
  rw [sleepList_eq_range_map]
  simp

/-- C4, witness: base 2, two transient failures then success — three
invocations, sleeps [1, 2]. -/
theorem retry_wrapper_spec_witness :
    retryExec (2 : ℚ) (List.replicate 2 (Outcome.transient (0 : Nat)) ++
        .ok (5 : Nat) :: []) =
      ⟨.success 5, 3, sleepList 2 0 2⟩ :=
  (retry_wrapper_spec (2 : ℚ) (by norm_num) 0 1 5 2 0 0 []).1

/-! ## Claim C7 -/

lemma getOrCreate_cache_hit {s : DriveState} {name : String} {parentId fid : Nat}
    (h : s.cache.lookup (cacheKey parentId name) = some fid) :
    getOrCreateFolder name parentId s = (fid, s) := by
  simp only [getOrCreateFolder, h]

lemma getOrCreate_caches_self (name : String) (parentId : Nat) (s : DriveState) :
    ((getOrCreateFolder name parentId s).2).cache.lookup (cacheKey parentId name) =
      some (getOrCreateFolder name parentId s).1 := by
  rcases hc : s.cache.lookup (cacheKey parentId name) with _ | fid
  · rcases hf : backendFind s.backend name parentId with _ | fid
    · simp only [getOrCreateFolder, hc, hf]
      simp [List.lookup]
    · simp only [getOrCreateFolder, hc, hf]
      simp [List.lookup]
  · simp only [getOrCreateFolder, hc]

lemma getOrCreate_cache_mono {s : DriveState} {k : String} {v : Nat}
    (name : String) (parentId : Nat) (h : s.cache.lookup k = some v) :
    ((getOrCreateFolder name parentId s).2).cache.lookup k = some v := by
  rcases hc : s.cache.lookup (cacheKey parentId name) with _ | fid
  · have hk : k ≠ cacheKey parentId name := by
      intro he
      rw [he, hc] at h
      cases h
    have hbeq : (k == cacheKey parentId name) = false := by
      simpa using hk
    rcases hf : backendFind s.backend name parentId with _ | fid
    · simp only [getOrCreateFolder, hc, hf]
      simpa [List.lookup, hbeq] using h
    · simp only [getOrCreateFolder, hc, hf]
      simpa [List.lookup, hbeq] using h
  · simp only [getOrCreateFolder, hc]
    exact h

lemma aux_cache_mono (parts : List String) :
    ∀ (parentId : Nat) (s : DriveState) (k : String) (v : Nat),
    s.cache.lookup k = some v →
    ((createFolderPathAux parts parentId s).2).cache.lookup k = some v := by
  induction parts with
  | nil => intro parentId s k v h; exact h
  | cons p rest ih =>
    intro parentId s k v h
    exact ih _ _ k v (getOrCreate_cache_mono p parentId h)

lemma aux_idempotent (parts : List String) :
    ∀ (parentId : Nat) (s s2 : DriveState),
    (∀ (k : String) (v : Nat),
      ((createFolderPathAux parts parentId s).2).cache.lookup k = some v →
      s2.cache.lookup k = some v) →
    createFolderPathAux parts parentId s2 =
      ((createFolderPathAux parts parentId s).1, s2) := by
  induction parts with
  | nil => intro parentId s s2 _; rfl
  | cons p rest ih =>
    intro parentId s s2 hext
    have hself := getOrCreate_caches_self p parentId s
    have hfinal : ((createFolderPathAux (p :: rest) parentId s).2).cache.lookup
        (cacheKey parentId p) = some (getOrCreateFolder p parentId s).1 := by
      simpa [createFolderPathAux] using
        aux_cache_mono rest (getOrCreateFolder p parentId s).1
          (getOrCreateFolder p parentId s).2 (cacheKey parentId p)
          (getOrCreateFolder p parentId s).1 hself
    have hs2 : s2.cache.lookup (cacheKey parentId p) =
        some (getOrCreateFolder p parentId s).1 :=
      hext _ _ hfinal
    have hstep : getOrCreateFolder p parentId s2 =
        ((getOrCreateFolder p parentId s).1, s2) := getOrCreate_cache_hit hs2
    show createFolderPathAux rest (getOrCreateFolder p parentId s2).1
        (getOrCreateFolder p parentId s2).2 = _
    rw [hstep]
    exact ih _ (getOrCreateFolder p parentId s).2 s2
      (fun k v h => hext k v (by simpa [createFolderPathAux] using h))

/-- C7: resolving the same folder path twice yields the same folder id on
both calls, and the second call leaves the gateway state — cache, backend
*and* backend-query counter — completely untouched: it is served entirely
from the `(parent_id, folder_name) → id` cache.  Moreover resolution only
ever adds cache entries (an entry, once written, survives every resolution),
and only the explicit `clear_folder_cache` empties the cache. -/
theorem folder_resolution_idempotent (rootId : Nat) (path : String)
    (s0 : DriveState) :
    (create_folder_path rootId path (create_folder_path rootId path s0).2).1 =
      (create_folder_path rootId path s0).1 ∧
    (create_folder_path rootId path (create_folder_path rootId path s0).2).2 =
      (create_folder_path rootId path s0).2 ∧
    (create_folder_path rootId path (create_folder_path rootId path s0).2).2.queries =
      (create_folder_path rootId path s0).2.queries ∧
    (create_folder_path rootId path (create_folder_path rootId path s0).2).2.backend =
      (create_folder_path rootId path s0).2.backend ∧
    (∀ (k : String) (v : Nat), s0.cache.lookup k = some v →
      ((create_folder_path rootId path s0).2).cache.lookup k = some v) ∧
    (clear_folder_cache s0).cache = [] := by
  have h := aux_idempotent (path.splitOn "/") rootId s0
    (createFolderPathAux (path.splitOn "/") rootId s0).2 (fun _ _ h => h)
  unfold create_folder_path
  refine ⟨by rw [h], by rw [h], by rw [h], by rw [h], ?_, rfl⟩
  intro k v hv
  exact aux_cache_mono (path.splitOn "/") rootId s0 k v hv

/-- C7, witness: a pre-existing cache entry survives resolving the path
"Phnom Penh/PNH-alice-03/20251223" from an empty backend. -/
theorem folder_resolution_idempotent_witness :
    ((create_folder_path 1 "Phnom Penh/PNH-alice-03/20251223"
        ⟨[("1/x", 42)], ⟨[], 100⟩, 0⟩).2).cache.lookup "1/x" = some 42 :=
  (folder_resolution_idempotent 1 "Phnom Penh/PNH-alice-03/20251223"
    ⟨[("1/x", 42)], ⟨[], 100⟩, 0⟩).2.2.2.2.1 "1/x" 42 (by rfl)

/-! ## Claim C8 -/

/-- C8: `upload_file` never raises to its caller — for every combination of
local-file existence, folder-resolution outcome and upload outcome it
returns (`Except.ok`) an `UploadResult`; the human-readable cause
distinguishes a missing local file ("File not found: …"), a backend HTTP
error ("HttpError {status}: …") and an unknown exception (`str(e)`); and
when transient backend errors during folder resolution exhaust the retry
bound, the re-raised transient error is caught and becomes a typed failure
result, never an unhandled fault. -/
theorem upload_file_never_raises :
    (∀ (p : String) (fe : Bool) (fr : Except PyExc Nat)
        (cr : Except PyExc (String × String)),
      ∃ r : UploadResult, upload_file p fe fr cr = .ok r) ∧
    (∀ (p : String) (fr : Except PyExc Nat) (cr : Except PyExc (String × String)),
      upload_file p false fr cr =
        .ok { success := false, error := some ("File not found: " ++ p) }) ∧
    (∀ (p m : String) (status : Nat) (cr : Except PyExc (String × String)),
      upload_file p true (.error (.httpError status m)) cr =
        .ok { success := false,
              error := some ("HttpError " ++ toString status ++ ": " ++ m) }) ∧
    (∀ (p m : String) (cr : Except PyExc (String × String)),
      upload_file p true (.error (.otherExc m)) cr =
        .ok { success := false, error := some m }) ∧
    (∀ (p fid link : String) (folderId : Nat),
      upload_file p true (.ok folderId) (.ok (fid, link)) =
        .ok { success := true, file_id := some fid, web_link := some link }) ∧
    (∀ (b : ℚ) (p m : String) (mx : Nat) (cr : Except PyExc (String × String)),
      (retryExec b (List.replicate (mx + 1)
          (Outcome.transient (PyExc.timeoutError m)) :
            List (Outcome PyExc Nat))).outcome =
        .raised (.listed (.timeoutError m)) ∧
      isRetryable (.timeoutError m) = true ∧
      upload_file p true (.error (.timeoutError m)) cr =
        .ok { success := false, error := some m }) := by
  refine ⟨?_, ?_, ?_, ?_, ?_, ?_⟩
  · intro p fe fr cr
    cases fe with
    | false => exact ⟨_, rfl⟩
    | true =>
      cases fr with
      | error e => exact ⟨_, rfl⟩
      | ok fid =>
        cases cr with
        | error e => exact ⟨_, rfl⟩
        | ok fi => exact ⟨_, rfl⟩
  · intro p fr cr; rfl
  · intro p m status cr; rfl
  · intro p m cr; rfl
  · intro p fid link folderId; rfl
  · intro b p m mx cr
    refine ⟨?_, rfl, rfl⟩
    rw [retryExec, retryAux_all_transient b (PyExc.timeoutError m) mx 0]

/-! ## Claim C2 -/



lemma runEv_cons (env : Env) (p : Session × BotState) (e : Ev) (evs : List Ev) :
    runEv env p (e :: evs) = runEv env (step env p.1 p.2 e) evs := rfl

lemma runEv_append (env : Env) (p : Session × BotState) (l1 l2 : List Ev) :
    runEv env p (l1 ++ l2) = runEv env (runEv env p l1) l2 := by
  simp [runEv, List.foldl_append]

lemma runEv_problem_toggles (env : Env) :
    ∀ (toggles : List String) (s : Session) (l : List String),
    s.visible_problems = some l →
    (∀ t ∈ toggles, t ≠ PROBLEM_DONE) →
    runEv env (s, .visibleProblems) (toggles.map .problem) =
      ({ s with visible_problems := some (toggles.foldl toggleProblem l) },
        .visibleProblems) := by
  intro toggles
  induction toggles with
  | nil =>
    intro s l hs _
    simp only [List.map_nil, runEv, List.foldl_nil]
    rw [← hs]
  | cons t ts ih =>
    intro s l hs hd
    have ht : t ≠ PROBLEM_DONE := hd t (by simp)
    rw [List.map_cons]
    have h1 : runEv env (s, .visibleProblems) (.problem t :: ts.map .problem) =
        runEv env (handleVisibleProblems s t) (ts.map .problem) := rfl
    rw [h1]
    have h2 : handleVisibleProblems s t =
        ({ s with visible_problems := some (toggleProblem l t) }, .visibleProblems) := by
      unfold handleVisibleProblems
      rw [if_neg ht, hs]
      rfl
    rw [h2, ih _ (toggleProblem l t) rfl (fun x hx => hd x (by simp [hx]))]
    rfl

lemma toggle_all_options (l : List String) (t : String)
    (hl : l.all (fun x => PROBLEM_OPTIONS.contains x) = true)
    (ht : PROBLEM_OPTIONS.contains t = true) :
    (toggleProblem l t).all (fun x => PROBLEM_OPTIONS.contains x) = true := by
  rw [List.all_eq_true] at hl ⊢
  intro x hx
  by_cases hn : t = PROBLEM_NONE
  · simp only [toggleProblem, if_pos hn] at hx
    simp only [List.mem_singleton] at hx
    subst hx
    decide
  · simp only [toggleProblem, if_neg hn] at hx
    by_cases hin : t ∈ l.erase PROBLEM_NONE
    · rw [if_pos hin] at hx
      exact hl x (List.erase_subset _ _ (List.erase_subset _ _ hx))
    · rw [if_neg hin] at hx
      rcases List.mem_append.mp hx with h1 | h1
      · exact hl x (List.erase_subset _ _ h1)
      · simp only [List.mem_singleton] at h1
        subst h1
        exact ht

lemma foldl_toggle_all_options :
    ∀ (toggles l : List String),
    toggles.all (fun t => PROBLEM_OPTIONS.contains t) = true →
    l.all (fun x => PROBLEM_OPTIONS.contains x) = true →
    (toggles.foldl toggleProblem l).all (fun x => PROBLEM_OPTIONS.contains x) = true := by
  intro toggles
  induction toggles with
  | nil => intro l _ hl; exact hl
  | cons t ts ih =>
    intro l ht hl
    simp only [List.all_cons, Bool.and_eq_true] at ht
    exact ih _ ht.2 (toggle_all_options l t hl ht.1)



/-- The session state reached after the canonical events up to and including
the overall-health answer. -/
def preSession (env : Env) (c : Choices) : Session :=
  { language := some c.lang, surveyStarted := true, survey_user_id := some env.userId,
    location := some (c.lat, c.lon), date_str := some env.today,
    province := some c.province,
    local_folder := some (pyReplaceChar c.province ' ' "_"),
    drive_folder := some (driveFolderPath c.province
      (pyReplaceChar env.username ' ' "_") c.farm env.today),
    farm_number := some c.farm, rainfall := some c.rainfall,
    rainfall_intensity := if c.rainfall = "yes" then some c.intensity else some VALUE_NA,
    soil_roughness := some c.soil, growth_stage := some c.growth,
    water_status := some c.water, overall_health := some c.health,
    visible_problems := some [] }

/-- The session state at survey completion. -/
def finalSession (env : Env) (c : Choices) : Session :=
  { preSession env c with
    visible_problems := some (c.problemToggles.foldl toggleProblem []),
    fertilizer := some c.fertilizer,
    fertilizer_type := if c.fertilizer = "yes" then some c.fertType else some VALUE_NA,
    herbicide := some c.herbicide, pesticide := some c.pesticide,
    stress_events := some c.stress, photo_count := some 0 }

lemma runEv_canonical (env : Env) (c : Choices)
    (hdone : ∀ t ∈ c.problemToggles, t ≠ PROBLEM_DONE) :
    runEv env (startSession env, .language) (canonicalEvents c) =
      (finalSession env c, .complete) := by
  have hmid := runEv_problem_toggles env c.problemToggles (preSession env c) []
    rfl hdone
  by_cases hr : c.rainfall = "yes" <;> by_cases hf : c.fertilizer = "yes"
  · have hsplit : canonicalEvents c =
        [.lang c.lang, .loc c.lat c.lon (some c.province), .farm c.farm,
         .rainfall c.rainfall, .intensity c.intensity, .soil c.soil,
         .growth c.growth, .water c.water, .health c.health] ++
        (c.problemToggles.map .problem ++
         [.problem PROBLEM_DONE, .fert c.fertilizer, .fertType c.fertType,
          .herb c.herbicide, .pest c.pesticide, .stress c.stress]) := by
      simp [canonicalEvents, hr, hf]
    have hpre : runEv env (startSession env, .language)
        [.lang c.lang, .loc c.lat c.lon (some c.province), .farm c.farm,
         .rainfall c.rainfall, .intensity c.intensity, .soil c.soil,
         .growth c.growth, .water c.water, .health c.health] =
        (preSession env c, .visibleProblems) := by
      simp [runEv, step, handleLocation, handleFarmNumber, handleRainfall,
        startSession, preSession, hr]
    have hsuf : runEv env
        ({ preSession env c with
            visible_problems := some (c.problemToggles.foldl toggleProblem []) },
          .visibleProblems)
        [.problem PROBLEM_DONE, .fert c.fertilizer, .fertType c.fertType,
         .herb c.herbicide, .pest c.pesticide, .stress c.stress] =
        (finalSession env c, .complete) := by
      simp [runEv, step, handleVisibleProblems, handleFertilizer,
        handleStressEvents, finalSession, hf]
    rw [hsplit, runEv_append, hpre, runEv_append, hmid, hsuf]
  · have hsplit : canonicalEvents c =
        [.lang c.lang, .loc c.lat c.lon (some c.province), .farm c.farm,
         .rainfall c.rainfall, .intensity c.intensity, .soil c.soil,
         .growth c.growth, .water c.water, .health c.health] ++
        (c.problemToggles.map .problem ++
         [.problem PROBLEM_DONE, .fert c.fertilizer,
          .herb c.herbicide, .pest c.pesticide, .stress c.stress]) := by
      simp [canonicalEvents, hr, hf]
    have hpre : runEv env (startSession env, .language)
        [.lang c.lang, .loc c.lat c.lon (some c.province), .farm c.farm,
         .rainfall c.rainfall, .intensity c.intensity, .soil c.soil,
         .growth c.growth, .water c.water, .health c.health] =
        (preSession env c, .visibleProblems) := by
      simp [runEv, step, handleLocation, handleFarmNumber, handleRainfall,
        startSession, preSession, hr]
    have hsuf : runEv env
        ({ preSession env c with
            visible_problems := some (c.problemToggles.foldl toggleProblem []) },
          .visibleProblems)
        [.problem PROBLEM_DONE, .fert c.fertilizer,
         .herb c.herbicide, .pest c.pesticide, .stress c.stress] =
        (finalSession env c, .complete) := by
      simp [runEv, step, handleVisibleProblems, handleFertilizer,
        handleStressEvents, finalSession, hf]
    rw [hsplit, runEv_append, hpre, runEv_append, hmid, hsuf]
  · have hsplit : canonicalEvents c =
        [.lang c.lang, .loc c.lat c.lon (some c.province), .farm c.farm,
         .rainfall c.rainfall, .soil c.soil,
         .growth c.growth, .water c.water, .health c.health] ++
        (c.problemToggles.map .problem ++
         [.problem PROBLEM_DONE, .fert c.fertilizer, .fertType c.fertType,
          .herb c.herbicide, .pest c.pesticide, .stress c.stress]) := by
      simp [canonicalEvents, hr, hf]
    have hpre : runEv env (startSession env, .language)
        [.lang c.lang, .loc c.lat c.lon (some c.province), .farm c.farm,
         .rainfall c.rainfall, .soil c.soil,
         .growth c.growth, .water c.water, .health c.health] =
        (preSession env c, .visibleProblems) := by
      simp [runEv, step, handleLocation, handleFarmNumber, handleRainfall,
        startSession, preSession, hr]
    have hsuf : runEv env
        ({ preSession env c with
            visible_problems := some (c.problemToggles.foldl toggleProblem []) },
          .visibleProblems)
        [.problem PROBLEM_DONE, .fert c.fertilizer, .fertType c.fertType,
         .herb c.herbicide, .pest c.pesticide, .stress c.stress] =
        (finalSession env c, .complete) := by
      simp [runEv, step, handleVisibleProblems, handleFertilizer,
        handleStressEvents, finalSession, hf]
    rw [hsplit, runEv_append, hpre, runEv_append, hmid, hsuf]
  · have hsplit : canonicalEvents c =
        [.lang c.lang, .loc c.lat c.lon (some c.province), .farm c.farm,
         .rainfall c.rainfall, .soil c.soil,
         .growth c.growth, .water c.water, .health c.health] ++
        (c.problemToggles.map .problem ++
         [.problem PROBLEM_DONE, .fert c.fertilizer,
          .herb c.herbicide, .pest c.pesticide, .stress c.stress]) := by
      simp [canonicalEvents, hr, hf]
    have hpre : runEv env (startSession env, .language)
        [.lang c.lang, .loc c.lat c.lon (some c.province), .farm c.farm,
         .rainfall c.rainfall, .soil c.soil,
         .growth c.growth, .water c.water, .health c.health] =
        (preSession env c, .visibleProblems) := by
      simp [runEv, step, handleLocation, handleFarmNumber, handleRainfall,
        startSession, preSession, hr]
    have hsuf : runEv env
        ({ preSession env c with
            visible_problems := some (c.problemToggles.foldl toggleProblem []) },
          .visibleProblems)
        [.problem PROBLEM_DONE, .fert c.fertilizer,
         .herb c.herbicide, .pest c.pesticide, .stress c.stress] =
        (finalSession env c, .complete) := by
      simp [runEv, step, handleVisibleProblems, handleFertilizer,
        handleStressEvents, finalSession, hf]
    rw [hsplit, runEv_append, hpre, runEv_append, hmid, hsuf]



/-- C2, amended: every valid event sequence following the canonical state
order drives the machine to the terminal COMPLETE state with every *scalar*
answer field — farm_number, rainfall, rainfall_intensity, soil_roughness,
growth_stage, water_status, overall_health, fertilizer, fertilizer_type,
herbicide, pesticide, stress_events — populated with either a genuine
selection or the N/A sentinel (the sentinel exactly on the skip branches);
`visible_problems` is assigned the set reached by the user's toggles, whose
members are all genuine options but which is *empty* when the user presses
"done" without selecting anything — it then holds neither a genuine
selection nor the sentinel. -/
theorem survey_completion_amended (env : Env) (c : Choices)
    (hw : wellFormedChoices c = true) :
    (runEv env (startSession env, .language) (canonicalEvents c)).2 = .complete ∧
    amendedPopulated
      (runEv env (startSession env, .language) (canonicalEvents c)).1 = true ∧
    (runEv env (startSession env, .language) (canonicalEvents c)).1.visible_problems =
      some (c.problemToggles.foldl toggleProblem []) ∧
    (c.rainfall ≠ "yes" →
      (runEv env (startSession env, .language)
        (canonicalEvents c)).1.rainfall_intensity = some VALUE_NA) ∧
    (c.fertilizer ≠ "yes" →
      (runEv env (startSession env, .language)
        (canonicalEvents c)).1.fertilizer_type = some VALUE_NA) := by
  simp only [wellFormedChoices, Bool.and_eq_true] at hw
  obtain ⟨⟨⟨⟨⟨⟨⟨⟨⟨⟨⟨⟨hlang, hrain⟩, hint⟩, hsoil⟩, hgrowth⟩, hwater⟩,
    hhealth⟩, htog⟩, hfert⟩, hft⟩, hherb⟩, hpest⟩, hstress⟩ := hw
  have hdone : ∀ t ∈ c.problemToggles, t ≠ PROBLEM_DONE := by
    intro t ht hteq
    have hmem := List.all_eq_true.mp htog t ht
    rw [hteq] at hmem
    exact absurd hmem (by decide)
  rw [runEv_canonical env c hdone]
  have htall : (c.problemToggles.foldl toggleProblem []).all
      (fun x => PROBLEM_OPTIONS.contains x) = true :=
    foldl_toggle_all_options c.problemToggles [] htog rfl
  have hrain2 : c.rainfall = "yes" ∨ c.rainfall = "no" := by
    simpa using hrain
  simp at hsoil hgrowth hwater hhealth hint hfert hft hherb hpest hstress htall
  refine ⟨rfl, ?_, rfl, ?_, ?_⟩
  · rcases hrain2 with hr | hr <;> by_cases hf : c.fertilizer = "yes" <;>
      simp [amendedPopulated, finalSession, preSession, fieldHoldsB, hr, hf,
        hsoil, hgrowth, hwater, hhealth, hint, hfert, hft, hherb, hpest,
        hstress, htall] <;>
      first
        | exact ⟨htall, Or.inl (by decide)⟩
        | exact ⟨htall, Or.inl hfert⟩
        | exact htall
  · intro h
    simp [finalSession, preSession, h]
  · intro h
    simp [finalSession, h]

def wEnv : Env := ⟨7, "alice", "2025-12-23"⟩

def wChoices : Choices :=
  { lang := "en", lat := 11, lon := 104, province := "Phnom Penh", farm := 3,
    rainfall := "no", intensity := "heavy", soil := "medium",
    growth := "tillering", water := "flooded", health := "good",
    problemToggles := ["yellowing"], fertilizer := "no", fertType := "urea",
    herbicide := "no", pesticide := "no", stress := "none" }

/-- C2, witness: the amended theorem applied to a concrete well-formed
choice of answers. -/
theorem survey_completion_amended_witness :
    (runEv wEnv (startSession wEnv, .language) (canonicalEvents wChoices)).2 =
      .complete :=
  (survey_completion_amended wEnv wChoices (by decide)).1

def cx2Choices : Choices :=
  { lang := "en", lat := 11, lon := 104, province := "Phnom Penh", farm := 3,
    rainfall := "no", intensity := "heavy", soil := "medium",
    growth := "tillering", water := "flooded", health := "good",
    problemToggles := [], fertilizer := "no", fertType := "urea",
    herbicide := "no", pesticide := "no", stress := "none" }

/-- C2, counterexample: the valid canonical event sequence in which the user
presses "done" in the VISIBLE_PROBLEMS state without toggling anything
reaches COMPLETE with `visible_problems = some []` — the field is assigned
but holds neither a genuine selection nor the not-applicable sentinel, so
the population property exactly as claimed is false. -/
theorem survey_completion_counterexample :
    wellFormedChoices cx2Choices = true ∧
    (runEv wEnv (startSession wEnv, .language) (canonicalEvents cx2Choices)).2 =
      .complete ∧
    (runEv wEnv (startSession wEnv, .language)
      (canonicalEvents cx2Choices)).1.visible_problems = some [] ∧
    claimPopulated
      (runEv wEnv (startSession wEnv, .language)
        (canonicalEvents cx2Choices)).1 = false := by
  decide

end FarmBot
